import Mathlib

/-
Verification development for the two model-definition scripts of this
repository: stack_gan/model.py (StackGAN stages 1 and 2) and
face_app/model.py (Age-cGAN).

Modelling conventions.

Shape semantics: a tensor shape is the list of its per-sample dimensions
in the channels-last layout the scripts use; the batch axis, which every
layer of these scripts carries through untouched, is omitted.
Operations whose source arguments refer to axes of the batched tensor
(`Concatenate(axis=...)`, `K.expand_dims(..., axis=...)`, `K.tile`
multiples) take the source's batched-axis arguments unchanged and
translate them internally: an axis is shifted down by one and a tile
multiple list loses its leading batch entry, with a batch multiple other
than one unsupported.  Every Keras layer that appears in the scripts gets
a shape transformer returning `Option Shape`; `none` models a
graph-construction error raised by the framework (incompatible
dimensions, rank mismatches).  The builder functions below transcribe
the scripts line by line.

Value semantics: feature maps are functions `Fin h → Fin w → Fin c → ℝ`.
Layers with learned parameters that no claim inspects internally
(convolutions, batch normalisation) are fields of a parameter structure,
one field per layer occurrence, typed with the exact shapes the graph
gives them; layers whose arithmetic the claims do inspect (dense layers,
activations, slicing, concatenation, the conditioning-augmentation
formula) are defined concretely.  The wiring of the source is kept
literally, including its miswirings: where the source feeds a layer from
an earlier tensor than the preceding line's result, so does the model.

Identifier-level slips of the source that leave the intended dataflow
unambiguous are normalised: `conact` for the `concat` defined on the
preceding line, `lambda` for the `Lambda` layer wrapper, the misspelled
layer class names (`LeakyRelu`, `Relu`, `Upsampling2D`), and
`tf.keras.math.exp` for the exponential.  Well-typed but wrong dataflow
(for example `BatchNormalization(...)(x)` where `x1` was just computed)
is preserved exactly as written.
-/

/-! ## Shape semantics of the Keras layers used by the scripts -/

abbrev Shape := List Nat

/-- Output spatial extent of a convolution along one axis: Keras `same`
padding gives `⌈d / s⌉`, `valid` padding gives `⌊(d - k) / s⌋ + 1` and
requires the kernel to fit. -/
def convOutDim (same : Bool) (k s d : Nat) : Option Nat :=
  if s = 0 then none
  else if same then some ((d + s - 1) / s)
  else if k ≤ d then some ((d - k) / s + 1) else none

/-- Shape of `Conv2D(filters, kernel_size=(k,k), strides=s, padding)` on a
channels-last feature map. -/
def conv2DShape (filters k s : Nat) (same : Bool) : Shape → Option Shape
  | [h, w, _c] => do
    let h' ← convOutDim same k s h
    let w' ← convOutDim same k s w
    pure [h', w', filters]
  | _ => none

/-- Shape of `UpSampling2D(size=(s,s))`. -/
def upSampling2DShape (s : Nat) : Shape → Option Shape
  | [h, w, c] => some [s * h, s * w, c]
  | _ => none

/-- Shape of `ZeroPadding2D(padding=(p,p))`. -/
def zeroPadding2DShape (p : Nat) : Shape → Option Shape
  | [h, w, c] => some [h + 2 * p, w + 2 * p, c]
  | _ => none

/-- Shape of `BatchNormalization()`: the identity. -/
def batchNormShape (s : Shape) : Option Shape :=
  some s

/-- Shape of a pointwise activation layer (`Relu`, `LeakyRelu`, `tanh`,
`sigmoid`): the identity. -/
def activationShape (s : Shape) : Option Shape :=
  some s

/-- Shape of `Dense(units)`: replaces the last axis. -/
def denseShape (units : Nat) : Shape → Option Shape
  | [] => none
  | a :: s => some ((a :: s).dropLast ++ [units])

/-- Shape of `Flatten()`: collapses everything after the batch axis into
one axis. -/
def flattenShape (s : Shape) : Option Shape :=
  some [s.prod]

/-- Shape of `Reshape(target)`: requires the element count to match. -/
def reshapeShape (target s : Shape) : Option Shape :=
  if s.prod = target.prod then some target else none

/-- Concatenation along per-sample axis `n`: the two operands must agree
everywhere except on that axis, which is summed. -/
def concatShapeAux : Nat → Shape → Shape → Option Shape
  | 0, a :: s, b :: t => if s = t then some ((a + b) :: s) else none
  | n + 1, a :: s, b :: t =>
    if a = b then (concatShapeAux n s t).map fun r => a :: r else none
  | _, _, _ => none

/-- Shape of `Concatenate(axis)` (and of the functional `concatenate`):
`axis` counts axes of the batched tensor, so it is shifted past the
omitted batch axis.  Concatenation on the batch axis itself is not used
by the scripts and unsupported. -/
def concatShape (axis : Nat) (s t : Shape) : Option Shape :=
  match axis with
  | 0 => none
  | n + 1 => concatShapeAux n s t

/-- Insertion of a 1 at per-sample axis `n`. -/
def expandDimsShapeAux : Nat → Shape → Option Shape
  | 0, s => some (1 :: s)
  | _ + 1, [] => none
  | n + 1, a :: s => (expandDimsShapeAux n s).map fun t => a :: t

/-- Shape of `K.expand_dims(x, axis)` for a positive batched axis:
inserts a 1 at that axis, shifted past the omitted batch axis. -/
def expandDimsShape (axis : Nat) (s : Shape) : Option Shape :=
  match axis with
  | 0 => none
  | n + 1 => expandDimsShapeAux n s

/-- Shape of `K.tile(x, multiples)`: `tf.tile` requires one multiple per
axis of the batched operand — one more than the per-sample rank — and
scales each axis by its multiple.  A batch multiple other than one is
unsupported. -/
def tileShape (multiples : List Nat) (s : Shape) : Option Shape :=
  match multiples with
  | [] => none
  | bm :: m =>
    if bm = 1 ∧ m.length = s.length then
      some (List.zipWith (fun mi d => mi * d) m s)
    else none

/-- Shape of the elementwise `add([x, y])`: both operands must agree. -/
def addShape (s t : Shape) : Option Shape :=
  if s = t then some s else none

namespace StackGAN

/-! ## stack_gan/model.py, shape level -/

/-- Shape of the `conditioning_augmentation` Lambda (lines 26-41): `mean`
is `x[:, :128]`, `log_sigma` is `x[:, 128:]`, the noise has the width of
`mean`, and `mean + exp(log_sigma) * noise` needs the two widths to
agree. -/
def conditioning_augmentation_shape : Shape → Option Shape
  | [d] => if min d 128 = d - 128 then some [min d 128] else none
  | _ => none

/-- Shape pipeline of `build_ca_model` (lines 43-54). -/
def build_ca_model_shape : Option Shape := do
  let input_layer := [1024]
  let x ← denseShape 256 input_layer
  let x ← activationShape x
  conditioning_augmentation_shape x

/-- Shape pipeline of `UpSamplingBlock` (lines 61-75): 2x upsample,
3x3 same-padding stride-1 convolution, batch normalisation, relu. -/
def UpSamplingBlock_shape (num_kernels : Nat) (x : Shape) : Option Shape := do
  let x ← upSampling2DShape 2 x
  let x ← conv2DShape num_kernels 3 1 true x
  let x ← batchNormShape x
  activationShape x

/-- Projection-and-reshape section of `build_stage1_generator`
(lines 93-95): dense to 16384, relu, reshape to 4x4x1024. -/
def stage1_project_reshape_shape (concat : Shape) : Option Shape := do
  let x ← denseShape 16384 concat
  let x ← activationShape x
  reshapeShape [4, 4, 1024] x

/-- Upsampling tower of `build_stage1_generator` (lines 97-100): four
upsample blocks with 512, 256, 128 and 64 kernels. -/
def stage1_upsample_tower_shape (x : Shape) : Option Shape := do
  let x ← UpSamplingBlock_shape 512 x
  let x ← UpSamplingBlock_shape 256 x
  let x ← UpSamplingBlock_shape 128 x
  UpSamplingBlock_shape 64 x

/-- Shape pipeline of `build_stage1_generator` (lines 77-106); the result
pairs the image output with the `ca` output. -/
def build_stage1_generator_shape : Option (Shape × Shape) := do
  let input_layer1 := [1024]
  let ca ← denseShape 256 input_layer1
  let ca ← activationShape ca
  let c ← conditioning_augmentation_shape ca
  let input_layer2 := [100]
  let concat ← concatShape 1 c input_layer2
  let x ← stage1_project_reshape_shape concat
  let x ← stage1_upsample_tower_shape x
  let x ← conv2DShape 3 3 1 true x
  let x ← activationShape x
  pure (x, ca)

/-- Shape pipeline of `ConvBlock` (lines 113-126): 4x4 same-padding
stride-2 convolution, batch normalisation, leaky relu. -/
def ConvBlock_shape (num_kernels : Nat) (x : Shape) : Option Shape := do
  let x ← conv2DShape num_kernels 4 2 true x
  let x ← batchNormShape x
  activationShape x

/-- Downsampling tower of `build_stage1_discriminator` (lines 137-142):
the initial convolution plus three `ConvBlock`s. -/
def stage1_disc_tower_shape (input_layer1 : Shape) : Option Shape := do
  let x ← conv2DShape 64 4 2 true input_layer1
  let x ← activationShape x
  let x ← ConvBlock_shape 128 x
  let x ← ConvBlock_shape 256 x
  ConvBlock_shape 512 x

/-- Shape pipeline of `build_stage1_discriminator` (lines 128-158),
transcribed with the source's own dataflow: the lines that rebind `x1`
feed from `x`, so the fused convolution's result is dropped. -/
def build_stage1_discriminator_shape : Option Shape := do
  let input_layer1 := [64, 64, 3]
  let x ← stage1_disc_tower_shape input_layer1
  let input_layer2 := [4, 4, 128]
  let concat ← concatShape 3 x input_layer2
  let _x1 ← conv2DShape 512 1 1 true concat
  let _x1 ← batchNormShape x
  let x1 ← activationShape x
  let x1 ← flattenShape x1
  let x1 ← denseShape 1 x1
  activationShape x1

/-- Shape pipeline of `concat_along_dims` (lines 215-229): one
`expand_dims` at axis 1, then `tile` with multiples `[1, 16, 16, 1]`,
then concatenation along axis 3. -/
def concat_along_dims_shape (c x : Shape) : Option Shape := do
  let c ← expandDimsShape 1 c
  let c ← tileShape [1, 16, 16, 1] c
  concatShape 3 c x

/-- Modelled from the spec: the broadcast-and-concatenate step of section
4.5 ("tile to the downsampled feature map's height/width, concatenate
along channels"), which the source's `concat_along_dims` was meant to
implement.  A width-`d` vector is tiled to the feature map's spatial
extent and concatenated channel-wise. -/
def spec_tile_concat_shape (c x : Shape) : Option Shape :=
  match c, x with
  | [d], [h, w, ch] => some [h, w, d + ch]
  | _, _ => none

/-- Shape pipeline of `residual_block` (lines 231-250), with the source's
own dataflow: both convolutions read `inputs`. -/
def residual_block_shape (inputs : Shape) : Option Shape := do
  let x ← conv2DShape 512 3 1 true inputs
  let x ← batchNormShape x
  let _x ← activationShape x
  let x ← conv2DShape 512 3 1 true inputs
  let x ← batchNormShape x
  let x ← addShape x inputs
  activationShape x

/-- Downsampling section of `build_stage2_generator` (lines 266-279). -/
def stage2_downsample_shape (input_images : Shape) : Option Shape := do
  let x ← zeroPadding2DShape 1 input_images
  let x ← conv2DShape 128 3 1 false x
  let x ← activationShape x
  let x ← zeroPadding2DShape 1 x
  let x ← conv2DShape 256 4 2 false x
  let x ← batchNormShape x
  let x ← activationShape x
  let x ← zeroPadding2DShape 1 x
  let x ← conv2DShape 512 4 2 false x
  let x ← batchNormShape x
  activationShape x

/-- Residual and upsampling sections of `build_stage2_generator`
(lines 284-302). -/
def stage2_refine_upsample_shape (concat : Shape) : Option Shape := do
  let x ← zeroPadding2DShape 1 concat
  let x ← conv2DShape 512 3 1 true x
  let x ← batchNormShape x
  let x ← activationShape x
  let x ← residual_block_shape x
  let x ← residual_block_shape x
  let x ← residual_block_shape x
  let x ← residual_block_shape x
  let x ← UpSamplingBlock_shape 512 x
  let x ← UpSamplingBlock_shape 256 x
  let x ← UpSamplingBlock_shape 128 x
  let x ← UpSamplingBlock_shape 64 x
  let x ← conv2DShape 3 3 1 true x
  activationShape x

/-- Shape pipeline of `build_stage2_generator` (lines 252-305); the
result pairs the image output with the `ca` output. -/
def build_stage2_generator_shape : Option (Shape × Shape) := do
  let input_layer1 := [1024]
  let input_images := [64, 64, 3]
  let ca ← denseShape 256 input_layer1
  let ca ← activationShape ca
  let c ← conditioning_augmentation_shape ca
  let x ← stage2_downsample_shape input_images
  let concat ← concat_along_dims_shape c x
  let x ← stage2_refine_upsample_shape concat
  pure (x, ca)

/-- Variant of `build_stage2_generator_shape` whose only change is to use
the spec's broadcast-and-concatenate step in place of the source's
`concat_along_dims`; used to compare the graph as written against the
spec's stated output resolution. -/
def build_stage2_generator_shape_spec_tile : Option (Shape × Shape) := do
  let input_layer1 := [1024]
  let input_images := [64, 64, 3]
  let ca ← denseShape 256 input_layer1
  let ca ← activationShape ca
  let c ← conditioning_augmentation_shape ca
  let x ← stage2_downsample_shape input_images
  let concat ← spec_tile_concat_shape c x
  let x ← stage2_refine_upsample_shape concat
  pure (x, ca)

end StackGAN

/-! ## Value semantics: tensors, activations, dense layers -/

/-- Per-sample vector of real features. -/
abbrev Vec (n : Nat) := Fin n → ℝ

/-- Per-sample channels-last feature map of real values. -/
abbrev Tensor (h w c : Nat) := Fin h → Fin w → Fin c → ℝ

/-- Pointwise `LeakyRelu(alpha)` activation. -/
noncomputable def leakyRelu (α x : ℝ) : ℝ :=
  if x < 0 then α * x else x

/-- Pointwise `Relu` activation. -/
noncomputable def relu (x : ℝ) : ℝ :=
  max 0 x

/-- Pointwise logistic sigmoid, the meaning of `Activation('sigmoid')`. -/
noncomputable def sigmoid (x : ℝ) : ℝ :=
  1 / (1 + Real.exp (-x))

/-- `LeakyRelu` applied to a vector. -/
noncomputable def leakyVec {n : Nat} (α : ℝ) (v : Vec n) : Vec n :=
  fun i => leakyRelu α (v i)

/-- `Relu` applied to a vector. -/
noncomputable def reluVec {n : Nat} (v : Vec n) : Vec n :=
  fun i => relu (v i)

/-- `sigmoid` applied to a vector. -/
noncomputable def sigmoidVec {n : Nat} (v : Vec n) : Vec n :=
  fun i => sigmoid (v i)

/-- `LeakyRelu` applied to a feature map. -/
noncomputable def leakyT {h w c : Nat} (α : ℝ) (t : Tensor h w c) : Tensor h w c :=
  fun i j k => leakyRelu α (t i j k)

/-- `Relu` applied to a feature map. -/
noncomputable def reluT {h w c : Nat} (t : Tensor h w c) : Tensor h w c :=
  fun i j k => relu (t i j k)

/-- `Activation('tanh')` applied to a feature map. -/
noncomputable def tanhT {h w c : Nat} (t : Tensor h w c) : Tensor h w c :=
  fun i j k => Real.tanh (t i j k)

/-- `Dense(u)` with its default bias: an affine map given by a weight
matrix and a bias vector. -/
noncomputable def dense {d u : Nat} (W : Fin u → Fin d → ℝ) (bias : Vec u)
    (v : Vec d) : Vec u :=
  fun j => (∑ i, W j i * v i) + bias j

/-- `Dense(u, use_bias=False)`: a linear map. -/
noncomputable def denseNoBias {d u : Nat} (W : Fin u → Fin d → ℝ) (v : Vec d) : Vec u :=
  fun j => ∑ i, W j i * v i

/-- Concatenation of two feature vectors, the meaning of
`Concatenate(axis=1)` on width-`m` and width-`n` inputs. -/
def concatVec {m n : Nat} (u : Vec m) (v : Vec n) : Vec (m + n) :=
  fun i =>
    if h : i.val < m then u ⟨i.val, h⟩
    else v ⟨i.val - m, by have := i.isLt; omega⟩

/-- Channel-wise concatenation of two feature maps, the meaning of
`concatenate` on channels-last inputs of equal spatial extent. -/
def concatChannels {h w c₁ c₂ : Nat} (x : Tensor h w c₁) (y : Tensor h w c₂) :
    Tensor h w (c₁ + c₂) :=
  fun i j k =>
    if hk : k.val < c₁ then x i j ⟨k.val, hk⟩
    else y i j ⟨k.val - c₁, by have := k.isLt; omega⟩

/-- `UpSampling2D(size=(2,2))` with its default nearest-neighbour
interpolation: each source pixel is replicated over a 2x2 block. -/
def upSample2 {h w c : Nat} (x : Tensor h w c) : Tensor (2 * h) (2 * w) c :=
  fun i j k =>
    x ⟨i.val / 2, Nat.div_lt_of_lt_mul i.isLt⟩ ⟨j.val / 2, Nat.div_lt_of_lt_mul j.isLt⟩ k

namespace StackGAN

/-! ## stack_gan/model.py, value level -/

/-- Value semantics of `conditioning_augmentation` (lines 26-41): split
the projected vector into `mean` and `log_sigma` halves and return
`mean + exp(log_sigma) * epsilon`, where `epsilon` is the standard-normal
draw `K.random_normal` produces, here passed in explicitly. -/
noncomputable def conditioning_augmentation (x : Vec 256) (ε : Vec 128) : Vec 128 :=
  let mean : Vec 128 := fun i => x (Fin.castLE (by norm_num) i)
  let log_sigma : Vec 128 := fun i => x (Fin.cast (by norm_num) (Fin.natAdd 128 i))
  let stddev : Vec 128 := fun i => Real.exp (log_sigma i)
  fun i => mean i + stddev i * ε i

/-- Value semantics of `build_ca_model` (lines 43-54): `Dense(256)` with
weights `W` and bias `bias`, `LeakyRelu(alpha=0.2)`, then the
conditioning-augmentation Lambda. -/
noncomputable def build_ca_model (W : Fin 256 → Fin 1024 → ℝ) (bias : Vec 256)
    (input_layer : Vec 1024) (ε : Vec 128) : Vec 128 :=
  let x := dense W bias input_layer
  let x := leakyVec 0.2 x
  conditioning_augmentation x ε

/-- Value semantics of `UpSamplingBlock` (lines 61-75), parametrised by
the learned transformations of its `Conv2D` (3x3, same padding, stride 1:
spatial extent preserved) and `BatchNormalization` layers. -/
noncomputable def UpSamplingBlock {h w cin k : Nat}
    (conv : Tensor (2 * h) (2 * w) cin → Tensor (2 * h) (2 * w) k)
    (bn : Tensor (2 * h) (2 * w) k → Tensor (2 * h) (2 * w) k)
    (x : Tensor h w cin) : Tensor (2 * h) (2 * w) k :=
  let x := upSample2 x
  let x := conv x
  let x := bn x
  reluT x

/-- `Reshape((4, 4, 1024))` on a width-16384 vector, row-major as in the
framework. -/
def reshape_4_4_1024 (v : Vec 16384) : Tensor 4 4 1024 :=
  fun i j k =>
    v ⟨(i.val * 4 + j.val) * 1024 + k.val, by
      have hi := i.isLt; have hj := j.isLt; have hk := k.isLt; omega⟩

/-- Learned-layer parameters of `build_stage1_generator`: one field per
parametrised layer occurrence, typed with the shapes the graph gives
them. -/
structure Stage1GenParams where
  caW : Fin 256 → Fin 1024 → ℝ
  caB : Vec 256
  projW : Fin 16384 → Fin 228 → ℝ
  conv1 : Tensor 8 8 1024 → Tensor 8 8 512
  bn1 : Tensor 8 8 512 → Tensor 8 8 512
  conv2 : Tensor 16 16 512 → Tensor 16 16 256
  bn2 : Tensor 16 16 256 → Tensor 16 16 256
  conv3 : Tensor 32 32 256 → Tensor 32 32 128
  bn3 : Tensor 32 32 128 → Tensor 32 32 128
  conv4 : Tensor 64 64 128 → Tensor 64 64 64
  bn4 : Tensor 64 64 64 → Tensor 64 64 64
  convOut : Tensor 64 64 64 → Tensor 64 64 3

/-- Value semantics of `build_stage1_generator` (lines 77-106): the
conditioning-augmentation head, concatenation with the latent input,
projection and reshape to 4x4x1024, four upsample blocks, and the final
3-channel convolution with `tanh`; returns the image and `ca` outputs.
The source's `conact` on line 93 is read as the `concat` defined on
line 91. -/
noncomputable def build_stage1_generator (p : Stage1GenParams)
    (input_layer1 : Vec 1024) (input_layer2 : Vec 100) (ε : Vec 128) :
    Tensor 64 64 3 × Vec 256 :=
  let ca := dense p.caW p.caB input_layer1
  let ca := leakyVec 0.2 ca
  let c := conditioning_augmentation ca ε
  let concat := concatVec c input_layer2
  let x := denseNoBias p.projW concat
  let x := reluVec x
  let x := reshape_4_4_1024 x
  let x := UpSamplingBlock p.conv1 p.bn1 x
  let x := UpSamplingBlock p.conv2 p.bn2 x
  let x := UpSamplingBlock p.conv3 p.bn3 x
  let x := UpSamplingBlock p.conv4 p.bn4 x
  let x := p.convOut x
  let x := tanhT x
  (x, ca)

/-- Value semantics of `ConvBlock` (lines 113-126), parametrised by the
learned transformations of its `Conv2D` and `BatchNormalization`
layers. -/
noncomputable def ConvBlock {h w cin h' w' k : Nat}
    (conv : Tensor h w cin → Tensor h' w' k)
    (bn : Tensor h' w' k → Tensor h' w' k)
    (x : Tensor h w cin) : Tensor h' w' k :=
  let x := conv x
  let x := bn x
  leakyT 0.2 x

/-- `Flatten()` on a 4x4x512 feature map, row-major. -/
def flatten_4_4_512 (t : Tensor 4 4 512) : Vec 8192 :=
  fun i =>
    t ⟨i.val / 2048, by have := i.isLt; omega⟩ ⟨i.val / 512 % 4, by omega⟩
      ⟨i.val % 512, by omega⟩

/-- Learned-layer parameters of `build_stage1_discriminator`. -/
structure Stage1DiscParams where
  conv0 : Tensor 64 64 3 → Tensor 32 32 64
  convB1 : Tensor 32 32 64 → Tensor 16 16 128
  bnB1 : Tensor 16 16 128 → Tensor 16 16 128
  convB2 : Tensor 16 16 128 → Tensor 8 8 256
  bnB2 : Tensor 8 8 256 → Tensor 8 8 256
  convB3 : Tensor 8 8 256 → Tensor 4 4 512
  bnB3 : Tensor 4 4 512 → Tensor 4 4 512
  convFused : Tensor 4 4 640 → Tensor 4 4 512
  bnFused : Tensor 4 4 512 → Tensor 4 4 512
  outW : Fin 1 → Fin 8192 → ℝ
  outB : Vec 1

/-- Value semantics of `build_stage1_discriminator` (lines 128-158),
transcribed line by line with the source's own dataflow: after the
channel-wise concatenation, line 148 computes the fused convolution on
`concat`, but lines 149 and 150 apply `BatchNormalization` and
`LeakyRelu` to `x` — the pre-concatenation tower output — rebinding `x1`
each time, so the fused convolution's result (and the concatenated
conditioning map) never reaches the flatten-dense-sigmoid head. -/
noncomputable def build_stage1_discriminator (p : Stage1DiscParams)
    (input_layer1 : Tensor 64 64 3) (input_layer2 : Tensor 4 4 128) : Vec 1 :=
  let x := p.conv0 input_layer1
  let x := leakyT 0.2 x
  let x := ConvBlock p.convB1 p.bnB1 x
  let x := ConvBlock p.convB2 p.bnB2 x
  let x := ConvBlock p.convB3 p.bnB3 x
  let concat := concatChannels x input_layer2
  let x1 := p.convFused concat
  let x1 := p.bnFused x
  let x1 := leakyT 0.2 x
  let x1 := flatten_4_4_512 x1
  let x1 := dense p.outW p.outB x1
  let x1 := sigmoidVec x1
  x1

end StackGAN

/-! ## Trainability state of a compiled model object -/

/-- The slice of a Keras model object the adversarial builders touch: its
learned weights (abstracted to one integer-valued cell) and its mutable
`trainable` flag. -/
structure KModel where
  weights : Int
  trainable : Bool

/-- Result of building an adversarial composite: the discriminator object
as it stands at the moment it is applied inside the composite, and the
same object as the builder leaves it on return. -/
structure AdvBuildResult where
  embeddedDisc : KModel
  discAfter : KModel

/-- Modelled from the spec: the frozen-weights contract of section 4.4.
The training-step semantics of the framework (`Model.fit` and friends)
are not part of this repository, so a generator-only optimisation step is
modelled per the spec: it moves a model's weights exactly when the
model's `trainable` flag is set. -/
def gradStep (δ : Int) (m : KModel) : KModel :=
  if m.trainable then { m with weights := m.weights + δ } else m

namespace StackGAN

/-- Trainability dataflow of `build_adversarial`
(stack_gan/model.py lines 187-208): the discriminator's `trainable` flag
is set to `False` before the discriminator is applied inside the
composite, and the function returns without ever resetting it. -/
def build_adversarial (generator_model discriminator_model : KModel) : AdvBuildResult :=
  let _ := generator_model
  let discriminator_model := { discriminator_model with trainable := false }
  { embeddedDisc := discriminator_model, discAfter := discriminator_model }

end StackGAN

namespace FaceApp

/-! ## face_app/model.py -/

/-- Calendar date with the fields `compute_age` reads. -/
structure CivilDate where
  year : Int
  month : Nat
  day : Nat

/-- Value semantics of Python's `datetime.fromordinal`: day number 1 is
0001-01-01 of the proleptic Gregorian calendar.  Computed with the
standard era decomposition: `n + 305` counts days from 0000-03-01, eras
are 146097-day blocks of 400 years, and within an era the year, day of
year and month are recovered arithmetically (months counted from March,
folded back to January counting at the end). -/
def datetime_fromordinal (n : Nat) : CivilDate :=
  let z := n + 305
  let era := z / 146097
  let doe := z % 146097
  let yoe := (doe - doe / 1460 + doe / 36524 - doe / 146096) / 365
  let y := yoe + era * 400
  let doy := doe - (365 * yoe + yoe / 4 - yoe / 100)
  let mp := (5 * doy + 2) / 153
  let d := doy - (153 * mp + 2) / 5 + 1
  let m := if mp < 10 then mp + 3 else mp - 9
  { year := (y : Int) + (if m ≤ 2 then 1 else 0), month := m, day := d }

/-- Value semantics of `compute_age` (lines 49-56): the birth date is
`datetime.fromordinal(max(int(dob) - 366, 1))`, and the age is the photo
year minus the birth year, less one when the birth month is at least
July. -/
def compute_age (photo_date : Int) (dob : Int) : Int :=
  let birth := datetime_fromordinal (max (dob - 366) 1).toNat
  if birth.month < 7 then photo_date - birth.year
  else photo_date - birth.year - 1

/-- `Flatten()` on a 32x32x256 feature map, row-major. -/
def flatten_32_32_256 (t : Tensor 32 32 256) : Vec 262144 :=
  fun i =>
    t ⟨i.val / 8192, by have := i.isLt; omega⟩ ⟨i.val / 256 % 32, by omega⟩
      ⟨i.val % 256, by omega⟩

/-- Learned-layer parameters of `encoder`.  Every convolution is typed as
the graph applies it: each one reads the 64x64x3 `input_layer` directly
(lines 80, 83, 87, 91), so each has spatial extent 32 after its stride-2
convolution, and the flattened width is 32*32*256. -/
structure EncoderParams where
  conv1 : Tensor 64 64 3 → Tensor 32 32 32
  conv2 : Tensor 64 64 3 → Tensor 32 32 64
  bn2 : Tensor 32 32 64 → Tensor 32 32 64
  conv3 : Tensor 64 64 3 → Tensor 32 32 128
  bn3 : Tensor 32 32 128 → Tensor 32 32 128
  conv4 : Tensor 64 64 3 → Tensor 32 32 256
  bn4 : Tensor 32 32 256 → Tensor 32 32 256
  fcW : Fin 4096 → Fin 262144 → ℝ
  fcB : Vec 4096
  bn5 : Vec 4096 → Vec 4096
  outW : Fin 100 → Fin 4096 → ℝ
  outB : Vec 100

/-- Value semantics of `encoder` (lines 76-101), transcribed line by
line: every `Conv2D` is applied to `input_layer`, not to the preceding
block's output, exactly as in the source. -/
noncomputable def encoder (p : EncoderParams) (input_layer : Tensor 64 64 3) : Vec 100 :=
  let x := p.conv1 input_layer
  let x := leakyT 0.2 x
  let x := p.conv2 input_layer
  let x := p.bn2 x
  let x := leakyT 0.2 x
  let x := p.conv3 input_layer
  let x := p.bn3 x
  let x := leakyT 0.2 x
  let x := p.conv4 input_layer
  let x := p.bn4 x
  let x := leakyT 0.2 x
  let x := flatten_32_32_256 x
  let x := dense p.fcW p.fcB x
  let x := p.bn5 x
  let x := leakyVec 0.2 x
  dense p.outW p.outB x

/-- Learned-layer parameters of the reduced encoder: only the 256-filter
convolution branch and the dense head. -/
structure EncoderReducedParams where
  conv4 : Tensor 64 64 3 → Tensor 32 32 256
  bn4 : Tensor 32 32 256 → Tensor 32 32 256
  fcW : Fin 4096 → Fin 262144 → ℝ
  fcB : Vec 4096
  bn5 : Vec 4096 → Vec 4096
  outW : Fin 100 → Fin 4096 → ℝ
  outB : Vec 100

/-- The smaller network the claim compares the encoder against: the
32-, 64- and 128-filter convolution blocks omitted entirely, keeping only
the 256-filter branch and the dense head. -/
noncomputable def encoder_reduced (p : EncoderReducedParams)
    (input_layer : Tensor 64 64 3) : Vec 100 :=
  let x := p.conv4 input_layer
  let x := p.bn4 x
  let x := leakyT 0.2 x
  let x := flatten_32_32_256 x
  let x := dense p.fcW p.fcB x
  let x := p.bn5 x
  let x := leakyVec 0.2 x
  dense p.outW p.outB x

/-- Trainability dataflow of `adversarial` (face_app/model.py lines
190-201): the discriminator's `trainable` flag is set to `False`, the
discriminator is applied inside the composite (line 198), and the flag is
set back to `True` before the function returns. -/
def adversarial (generator discriminator : KModel) : AdvBuildResult :=
  let _ := generator
  let discriminator := { discriminator with trainable := false }
  let embedded := discriminator
  let discriminator := { discriminator with trainable := true }
  { embeddedDisc := embedded, discAfter := discriminator }

end FaceApp

/-! ## Helper bounds for the saturating activations -/

theorem real_tanh_lt_one (x : ℝ) : Real.tanh x < 1 := by
  rw [Real.tanh_eq_sinh_div_cosh]
  exact (div_lt_one (Real.cosh_pos x)).mpr (Real.sinh_lt_cosh x)

theorem real_neg_one_lt_tanh (x : ℝ) : -1 < Real.tanh x := by
  rw [Real.tanh_eq_sinh_div_cosh]
  rw [lt_div_iff₀ (Real.cosh_pos x)]
  have h : Real.sinh (-x) < Real.cosh (-x) := Real.sinh_lt_cosh (-x)
  rw [Real.sinh_neg, Real.cosh_neg] at h
  linarith

theorem sigmoid_nonneg (x : ℝ) : 0 ≤ sigmoid x := by
  unfold sigmoid
  positivity

theorem sigmoid_le_one (x : ℝ) : sigmoid x ≤ 1 := by
  unfold sigmoid
  rw [div_le_one (by positivity)]
  have := Real.exp_pos (-x)
  linarith

/-! ## Claims -/

/-- Claim C1: the Stage-1 generator reshapes to a 4x4 spatial volume,
applies exactly four upsample blocks — each of which doubles the spatial
extent of any feature map — and ends in a 3-channel convolution with
`tanh`, so for every embedding, latent vector and parameter choice the
image output has shape 64x64x3 with every value in [-1, 1]. -/
theorem stage1_generator_image_contract :
    StackGAN.build_stage1_generator_shape = some ([64, 64, 3], [256]) ∧
    (∀ knl h w c : Nat,
      StackGAN.UpSamplingBlock_shape knl [h, w, c] = some [2 * h, 2 * w, knl]) ∧
    ∀ (p : StackGAN.Stage1GenParams) (e : Vec 1024) (z : Vec 100) (ε : Vec 128)
      (i : Fin 64) (j : Fin 64) (k : Fin 3),
      -1 ≤ (StackGAN.build_stage1_generator p e z ε).1 i j k ∧
        (StackGAN.build_stage1_generator p e z ε).1 i j k ≤ 1 := by
  refine ⟨rfl, ?_, fun p e z ε i j k =>
    ⟨(real_neg_one_lt_tanh _).le, (real_tanh_lt_one _).le⟩⟩
  intro knl h w c
  simp [StackGAN.UpSamplingBlock_shape, upSampling2DShape, conv2DShape, convOutDim,
    batchNormShape, activationShape]

/-- Claim C2: the conditioning-augmentation model projects a width-1024
embedding through one width-256 affine layer with leaky-rectifier
activation, splits the result into width-128 `mean` and `log_sigma`
halves, and returns `mean + exp(log_sigma) * noise` with width-128
noise; the output width 128 is half the projected layer's width 256. -/
theorem ca_model_formula :
    (∀ (W : Fin 256 → Fin 1024 → ℝ) (bias : Vec 256) (e : Vec 1024) (ε : Vec 128)
        (i : Fin 128),
      StackGAN.build_ca_model W bias e ε i =
        leakyVec 0.2 (dense W bias e) (Fin.castLE (by norm_num) i) +
          Real.exp (leakyVec 0.2 (dense W bias e)
            (Fin.cast (by norm_num) (Fin.natAdd 128 i))) * ε i) ∧
    128 + 128 = 256 :=
  ⟨fun W bias e ε i => rfl, rfl⟩

/-- Claim C3: the Stage-1 discriminator does produce a single sigmoid
scalar in [0, 1], but its output is not computed from the fused
convolution over the concatenated conditioning map — the flattened
tensor is the leaky-rectified fourth-tower output, so the probability is
identical for any two conditioning maps.  This contradicts the claimed
dataflow and is evidence for the `x1`/`x` slip on source lines
149-150. -/
theorem stage1_discriminator_ignores_conditioning :
    (StackGAN.build_stage1_discriminator_shape = some [1]) ∧
    (∀ (p : StackGAN.Stage1DiscParams) (img : Tensor 64 64 3) (cond : Tensor 4 4 128)
        (i : Fin 1),
      0 ≤ StackGAN.build_stage1_discriminator p img cond i ∧
        StackGAN.build_stage1_discriminator p img cond i ≤ 1) ∧
    ∀ (p : StackGAN.Stage1DiscParams) (img : Tensor 64 64 3)
      (c₁ c₂ : Tensor 4 4 128),
      StackGAN.build_stage1_discriminator p img c₁ =
        StackGAN.build_stage1_discriminator p img c₂ :=
  ⟨rfl, fun p img cond i => ⟨sigmoid_nonneg _, sigmoid_le_one _⟩,
    fun p img c₁ c₂ => rfl⟩

/-- Claim C4 counterexample: the StackGAN Stage-1 adversarial builder
does not restore the discriminator to trainable — starting from a
trainable discriminator, the discriminator object is left non-trainable
after the composite is built. -/
theorem build_adversarial_leaves_disc_nontrainable :
    ¬ (StackGAN.build_adversarial ⟨0, true⟩ ⟨0, true⟩).discAfter.trainable = true := by
  decide

/-- Claim C4 as amended: both adversarial builders embed the
discriminator with its `trainable` flag cleared, so a generator-only
optimisation step through the composite leaves the embedded
discriminator's weights unchanged; the Age-cGAN builder then restores
the flag before returning, while the StackGAN Stage-1 builder leaves it
cleared. -/
theorem adversarial_trainable_discipline :
    ∀ (g d : KModel) (δ : Int),
      (StackGAN.build_adversarial g d).embeddedDisc.trainable = false ∧
      gradStep δ (StackGAN.build_adversarial g d).embeddedDisc =
        (StackGAN.build_adversarial g d).embeddedDisc ∧
      (StackGAN.build_adversarial g d).discAfter.trainable = false ∧
      (FaceApp.adversarial g d).embeddedDisc.trainable = false ∧
      gradStep δ (FaceApp.adversarial g d).embeddedDisc =
        (FaceApp.adversarial g d).embeddedDisc ∧
      (FaceApp.adversarial g d).discAfter.trainable = true :=
  fun g d δ => ⟨rfl, rfl, rfl, rfl, rfl, rfl⟩

/-- Claim C5: the Stage-2 generator graph as written never yields an
image at all — its construction fails inside `concat_along_dims` — and
even with the spec's broadcast-and-concatenate step in its place the
declared layers produce a 288x288x3 image, not 256x256x3, because the
3x3 convolution after the explicit zero-padding uses same padding. -/
theorem stage2_generator_shape_outcome :
    StackGAN.build_stage2_generator_shape = none ∧
    StackGAN.build_stage2_generator_shape_spec_tile = some ([288, 288, 3], [256]) :=
  ⟨rfl, rfl⟩

/-- Claim C6: `concat_along_dims` expands the conditioning vector only
once before tiling, so `K.tile` receives four multiples for a rank-3
tensor and the step fails instead of yielding the 16x16x640 feature map;
the spec's broadcast-and-concatenate step does yield it. -/
theorem concat_along_dims_tile_mismatch :
    StackGAN.concat_along_dims_shape [128] [16, 16, 512] = none ∧
    StackGAN.spec_tile_concat_shape [128] [16, 16, 512] = some [16, 16, 640] :=
  ⟨rfl, rfl⟩

/-- Claim C7: the residual block — with the source's own dataflow —
maps any 512-channel feature map to one of the same shape. -/
theorem residual_block_preserves_shape :
    ∀ h w : Nat, StackGAN.residual_block_shape [h, w, 512] = some [h, w, 512] := by
  intro h w
  simp [StackGAN.residual_block_shape, conv2DShape, convOutDim, batchNormShape,
    activationShape, addShape]

/-- Claim C8: conditioning augmentation is stochastic in its noise
source — two standard-normal draws exist on which the same embedding
maps to different outputs — and deterministic given the noise: equal
injected noise yields equal outputs. -/
theorem conditioning_augmentation_stochasticity :
    (∃ (ε₁ ε₂ : Vec 128) (W : Fin 256 → Fin 1024 → ℝ) (bias : Vec 256) (e : Vec 1024),
      StackGAN.build_ca_model W bias e ε₁ ≠ StackGAN.build_ca_model W bias e ε₂) ∧
    ∀ (W : Fin 256 → Fin 1024 → ℝ) (bias : Vec 256) (e : Vec 1024) (ε₁ ε₂ : Vec 128),
      ε₁ = ε₂ →
      StackGAN.build_ca_model W bias e ε₁ = StackGAN.build_ca_model W bias e ε₂ := by
  constructor
  · refine ⟨fun _ => 0, fun _ => 1, fun _ _ => 0, fun _ => 0, fun _ => 0, ?_⟩
    intro hcontra
    have h0 := congrFun hcontra ⟨0, by norm_num⟩
    simp [StackGAN.build_ca_model, StackGAN.conditioning_augmentation, leakyVec, leakyRelu,
      dense, Real.exp_zero] at h0
  · intro W bias e ε₁ ε₂ hε
    rw [hε]

/-- Witness for claim C8: the determinism half applied at the zero
parameters, embedding and noise. -/
theorem conditioning_augmentation_stochasticity_witness :
    StackGAN.build_ca_model (fun _ _ => 0) (fun _ => 0) (fun _ => 0) (fun _ => 0) =
      StackGAN.build_ca_model (fun _ _ => 0) (fun _ => 0) (fun _ => 0) (fun _ => 0) :=
  conditioning_augmentation_stochasticity.2 _ _ _ _ _ rfl

/-- Claim C9: `compute_age` returns the photo year minus the birth year
of `datetime.fromordinal(max(dob - 366, 1))`, decremented by one exactly
when that birth month is July or later; checked concretely on a
June-15-1980 birth (age 30 in 2010) and a July-4-1980 birth (age 29). -/
theorem compute_age_rule :
    (∀ (photo_date dob : Int),
      FaceApp.compute_age photo_date dob =
        photo_date - (FaceApp.datetime_fromordinal (max (dob - 366) 1).toNat).year -
          (if 7 ≤ (FaceApp.datetime_fromordinal (max (dob - 366) 1).toNat).month
            then 1 else 0)) ∧
    FaceApp.compute_age 2010 723347 = 30 ∧ FaceApp.compute_age 2010 723366 = 29 := by
  refine ⟨?_, rfl, rfl⟩
  intro photo_date dob
  simp only [FaceApp.compute_age]
  split
  next h => rw [if_neg (by omega)]; ring
  next h => rw [if_pos (by omega)]

/-- Claim C10: because every encoder convolution reads the original
input layer, the encoder computes exactly what the reduced network —
with the 32-, 64- and 128-filter blocks omitted — computes from the
256-filter branch alone, for all parameters and inputs. -/
theorem encoder_collapses_to_last_branch :
    ∀ (p : FaceApp.EncoderParams) (input_layer : Tensor 64 64 3),
      FaceApp.encoder p input_layer =
        FaceApp.encoder_reduced
          ⟨p.conv4, p.bn4, p.fcW, p.fcB, p.bn5, p.outW, p.outB⟩ input_layer :=
  fun p input_layer => rfl
